import Mathlib

/-!
Verification of the implied-growth-rate calculator (Gordon Growth Model).

The program's numeric core is the function `calculateImpliedGrowthRate`
(also inlined as the `model` memo in the main component) together with the
caller-side `validateInputs` predicate.  We embed both over ℚ, mirroring the
source line by line: percentages are converted by division by 100, the
implied growth fraction is `r - D1/P`, the cash-flow table is built for
years 0..10, and all boolean flags are computed with `decide` on the exact
comparisons the source performs.
-/

/-- The four scalar inputs of the calculator. -/
structure Inputs where
  marketPrice : ℚ
  dividendAmount : ℚ
  requiredReturn : ℚ
  expectedDividend : ℚ
deriving DecidableEq

/-- One row of the projected cash-flow table. -/
structure CashflowPoint where
  year : ℕ
  dividend : ℚ
  investment : ℚ
  total : ℚ
deriving DecidableEq

/-- The result record returned by the growth-rate model. -/
structure GrowthModelResult where
  impliedGrowth : ℚ
  cashflows : List CashflowPoint
  d1Consistent : Bool
  calculatedD1 : ℚ
  isValid : Bool
deriving DecidableEq

/-- Default row used with `List.getD` when indexing the cash-flow table. -/
def defaultCF : CashflowPoint := { year := 0, dividend := 0, investment := 0, total := 0 }

/-- Embedding of `calculateImpliedGrowthRate` / the `model` computation:
converts the required return to a fraction, computes the implied growth
`g = r - D1/P`, the percentage form, the D1 consistency check against a
0.01 tolerance, the 11-row cash-flow table (year 0 is the investment
outflow `-price`, years 1..10 carry `d0 * (1+g)^year`), and the validity
flag `g < r && g >= 0`. -/
def calculateImpliedGrowthRate (inp : Inputs) : GrowthModelResult :=
  let r := inp.requiredReturn / 100
  let d0 := inp.dividendAmount
  let d1 := inp.expectedDividend
  let price := inp.marketPrice
  let impliedGrowth := r - d1 / price
  let impliedGrowthPct := impliedGrowth * 100
  let calculatedD1 := d0 * (1 + impliedGrowth)
  let d1Consistent := decide (|d1 - calculatedD1| < 1 / 100)
  let cashflows := (List.range 11).map (fun year =>
    if year = 0 then
      { year := year, dividend := 0, investment := -price, total := -price }
    else
      let dividend := d0 * (1 + impliedGrowth) ^ year
      { year := year, dividend := dividend, investment := 0, total := dividend })
  { impliedGrowth := impliedGrowthPct
    cashflows := cashflows
    d1Consistent := d1Consistent
    calculatedD1 := calculatedD1
    isValid := decide (impliedGrowth < r) && decide (impliedGrowth ≥ 0) }

/-- The per-field error mapping returned by `validateInputs`:
`none` for a field means no error recorded under that key. -/
structure ValidationErrors where
  marketPrice : Option String
  dividendAmount : Option String
  requiredReturn : Option String
  expectedDividend : Option String
  financial : Option String
deriving DecidableEq

/-- Embedding of the caller-side `validateInputs`: range checks on the four
fields (JS falsiness of a number is modelled as equality with 0), plus the
financial-logic check that records a `financial` error when the derived
growth satisfies `g >= r`, guarded by the three strict positivity tests the
source performs. -/
def validateInputs (inp : Inputs) : ValidationErrors :=
  { marketPrice :=
      if inp.marketPrice = 0 ∨ inp.marketPrice < 1 then
        some "Market price must be at least $1"
      else if inp.marketPrice > 500 then
        some "Market price cannot exceed $500"
      else none
    dividendAmount :=
      if inp.dividendAmount < 0 then
        some "Current dividend cannot be negative"
      else if inp.dividendAmount > 50 then
        some "Current dividend cannot exceed $50"
      else none
    requiredReturn :=
      if inp.requiredReturn = 0 ∨ inp.requiredReturn ≤ 0 then
        some "Required return must be positive"
      else if inp.requiredReturn > 25 then
        some "Required return cannot exceed 25%"
      else none
    expectedDividend :=
      if inp.expectedDividend < 0 then
        some "Expected dividend cannot be negative"
      else if inp.expectedDividend > 50 then
        some "Expected dividend cannot exceed $50"
      else none
    financial :=
      if inp.requiredReturn > 0 ∧ inp.expectedDividend > 0 ∧ inp.marketPrice > 0 then
        if inp.requiredReturn / 100 - inp.expectedDividend / inp.marketPrice ≥
            inp.requiredReturn / 100 then
          some "These inputs would result in invalid growth rate (g ≥ r)"
        else none
      else none }

/-- `Object.keys(errors).length === 0`: no field of the mapping holds an error. -/
def ValidationErrors.isEmpty (e : ValidationErrors) : Bool :=
  e.marketPrice.isNone && e.dividendAmount.isNone && e.requiredReturn.isNone &&
    e.expectedDividend.isNone && e.financial.isNone

/-- The growth fraction `g` the source derives, named for readability of
statements; identical to the `impliedGrowth` let-binding of the model. -/
def growthFraction (inp : Inputs) : ℚ :=
  inp.requiredReturn / 100 - inp.expectedDividend / inp.marketPrice

/-- Row `y` of the cash-flow table, for `y < 11`: year 0 holds the
investment outflow, later years the grown dividend. Shared shape lemma
used by the row-content claims. -/
theorem cashflows_getD_eq (inp : Inputs) (y : ℕ) (hy : y < 11) :
    (calculateImpliedGrowthRate inp).cashflows.getD y defaultCF =
      if y = 0 then
        { year := 0, dividend := 0, investment := -inp.marketPrice,
          total := -inp.marketPrice }
      else
        { year := y,
          dividend := inp.dividendAmount * (1 + growthFraction inp) ^ y,
          investment := 0,
          total := inp.dividendAmount * (1 + growthFraction inp) ^ y } := by
  interval_cases y <;> rfl

/-- C1: for every input with positive market price, the returned
`impliedGrowth` percentage equals `100 * (requiredReturn/100 - D1/P)`. -/
theorem impliedGrowth_formula (inp : Inputs) (hp : 0 < inp.marketPrice) :
    (calculateImpliedGrowthRate inp).impliedGrowth =
      100 * (inp.requiredReturn / 100 - inp.expectedDividend / inp.marketPrice) := by
  simp only [calculateImpliedGrowthRate]
  ring

/-- Witness for C1 at the concrete input P=2, D0=1, R=10, D1=1. -/
theorem impliedGrowth_formula_witness :
    (0 : ℚ) < 2 ∧
      (calculateImpliedGrowthRate ⟨2, 1, 10, 1⟩).impliedGrowth =
        100 * ((10 : ℚ) / 100 - 1 / 2) :=
  ⟨by norm_num, impliedGrowth_formula ⟨2, 1, 10, 1⟩ (by norm_num)⟩

/-- C2: for every input with positive market price, `isValid` is `true`
iff `0 ≤ g` and `g < requiredReturn/100` for `g = requiredReturn/100 - D1/P`. -/
theorem isValid_iff (inp : Inputs) (hp : 0 < inp.marketPrice) :
    (calculateImpliedGrowthRate inp).isValid = true ↔
      0 ≤ inp.requiredReturn / 100 - inp.expectedDividend / inp.marketPrice ∧
        inp.requiredReturn / 100 - inp.expectedDividend / inp.marketPrice <
          inp.requiredReturn / 100 := by
  simp only [calculateImpliedGrowthRate, Bool.and_eq_true, decide_eq_true_eq, ge_iff_le]
  exact and_comm

/-- Witness for C2 at the concrete input P=2, D0=1, R=10, D1=1. -/
theorem isValid_iff_witness :
    (0 : ℚ) < 2 ∧
      ((calculateImpliedGrowthRate ⟨2, 1, 10, 1⟩).isValid = true ↔
        0 ≤ (10 : ℚ) / 100 - 1 / 2 ∧ (10 : ℚ) / 100 - 1 / 2 < (10 : ℚ) / 100) :=
  ⟨by norm_num, isValid_iff ⟨2, 1, 10, 1⟩ (by norm_num)⟩

/-- C4: for every input with positive market price, the cash-flow table has
exactly 11 rows, the year fields read 0,1,...,10 in order, and the table is
determined solely by the four input fields. -/
theorem cashflows_shape (inp : Inputs) (hp : 0 < inp.marketPrice) :
    (calculateImpliedGrowthRate inp).cashflows.length = 11 ∧
      (calculateImpliedGrowthRate inp).cashflows.map CashflowPoint.year = List.range 11 ∧
      ∀ inp₂ : Inputs, inp.marketPrice = inp₂.marketPrice →
        inp.dividendAmount = inp₂.dividendAmount →
        inp.requiredReturn = inp₂.requiredReturn →
        inp.expectedDividend = inp₂.expectedDividend →
        (calculateImpliedGrowthRate inp).cashflows =
          (calculateImpliedGrowthRate inp₂).cashflows := by
  refine ⟨?_, ?_, ?_⟩
  · simp [calculateImpliedGrowthRate]
  · rfl
  · intro inp₂ h1 h2 h3 h4
    obtain ⟨p, d, r, e⟩ := inp
    obtain ⟨p₂, d₂, r₂, e₂⟩ := inp₂
    simp only at h1 h2 h3 h4
    subst h1; subst h2; subst h3; subst h4
    rfl

/-- Witness for C4 at the concrete input P=2, D0=1, R=10, D1=1. -/
theorem cashflows_shape_witness :
    (0 : ℚ) < 2 ∧
      ((calculateImpliedGrowthRate ⟨2, 1, 10, 1⟩).cashflows.length = 11 ∧
        (calculateImpliedGrowthRate ⟨2, 1, 10, 1⟩).cashflows.map CashflowPoint.year =
          List.range 11 ∧
        ∀ inp₂ : Inputs, (2 : ℚ) = inp₂.marketPrice → (1 : ℚ) = inp₂.dividendAmount →
          (10 : ℚ) = inp₂.requiredReturn → (1 : ℚ) = inp₂.expectedDividend →
          (calculateImpliedGrowthRate ⟨2, 1, 10, 1⟩).cashflows =
            (calculateImpliedGrowthRate inp₂).cashflows) :=
  ⟨by norm_num, cashflows_shape ⟨2, 1, 10, 1⟩ (by norm_num)⟩

/-- C5: row contents of the cash-flow table: year 0 carries zero dividend and
the investment outflow `-marketPrice`; each year 1..10 carries dividend
`d0 * (1+g)^year` and zero investment; and every row's total is the sum of
its dividend and investment. -/
theorem cashflows_rows (inp : Inputs) (hp : 0 < inp.marketPrice) :
    ((calculateImpliedGrowthRate inp).cashflows.getD 0 defaultCF).dividend = 0 ∧
      ((calculateImpliedGrowthRate inp).cashflows.getD 0 defaultCF).investment =
        -inp.marketPrice ∧
      (∀ y : ℕ, 1 ≤ y → y ≤ 10 →
        ((calculateImpliedGrowthRate inp).cashflows.getD y defaultCF).dividend =
            inp.dividendAmount *
              (1 + (inp.requiredReturn / 100 -
                inp.expectedDividend / inp.marketPrice)) ^ y ∧
          ((calculateImpliedGrowthRate inp).cashflows.getD y defaultCF).investment = 0) ∧
      ∀ y : ℕ, y < 11 →
        ((calculateImpliedGrowthRate inp).cashflows.getD y defaultCF).total =
          ((calculateImpliedGrowthRate inp).cashflows.getD y defaultCF).dividend +
            ((calculateImpliedGrowthRate inp).cashflows.getD y defaultCF).investment := by
  refine ⟨?_, ?_, ?_, ?_⟩
  · rw [cashflows_getD_eq inp 0 (by norm_num)]; rfl
  · rw [cashflows_getD_eq inp 0 (by norm_num)]; rfl
  · intro y hy1 hy10
    rw [cashflows_getD_eq inp y (by omega), if_neg (by omega)]
    exact ⟨rfl, rfl⟩
  · intro y hy
    rw [cashflows_getD_eq inp y hy]
    by_cases h0 : y = 0
    · subst h0; simp
    · rw [if_neg h0]; simp

/-- Witness for C5 at the concrete input P=2, D0=1, R=10, D1=1. -/
theorem cashflows_rows_witness :
    (0 : ℚ) < 2 ∧
      ((calculateImpliedGrowthRate ⟨2, 1, 10, 1⟩).cashflows.getD 0 defaultCF).dividend = 0 :=
  ⟨by norm_num, (cashflows_rows ⟨2, 1, 10, 1⟩ (by norm_num)).1⟩

/-- C6: `calculatedD1` equals `d0 * (1 + g)` and `d1Consistent` is `true`
iff `|D1 - d0 * (1+g)| < 0.01` (strict comparison against the fixed
absolute tolerance 1/100). -/
theorem d1_consistency_spec (inp : Inputs) (hp : 0 < inp.marketPrice) :
    (calculateImpliedGrowthRate inp).calculatedD1 =
        inp.dividendAmount *
          (1 + (inp.requiredReturn / 100 - inp.expectedDividend / inp.marketPrice)) ∧
      ((calculateImpliedGrowthRate inp).d1Consistent = true ↔
        |inp.expectedDividend -
            inp.dividendAmount *
              (1 + (inp.requiredReturn / 100 -
                inp.expectedDividend / inp.marketPrice))| < 1 / 100) := by
  constructor
  · rfl
  · simp only [calculateImpliedGrowthRate, decide_eq_true_eq]

/-- Witness for C6 at the concrete input P=2, D0=1, R=10, D1=1. -/
theorem d1_consistency_spec_witness :
    (0 : ℚ) < 2 ∧
      (calculateImpliedGrowthRate ⟨2, 1, 10, 1⟩).calculatedD1 =
        1 * (1 + ((10 : ℚ) / 100 - 1 / 2)) :=
  ⟨by norm_num, (d1_consistency_spec ⟨2, 1, 10, 1⟩ (by norm_num)).1⟩

/-- C7: for every input with positive market price the computation is total
(the embedding is a plain function, mirroring the exception-free source) and
returns a fully populated result: an 11-row table, the implied-growth and
calculated-D1 fields holding their defining values, and the two flags each a
boolean — invalidity is signalled only through `isValid`, never a failure. -/
theorem calc_total_wellformed (inp : Inputs) (hp : 0 < inp.marketPrice) :
    (calculateImpliedGrowthRate inp).cashflows.length = 11 ∧
      (calculateImpliedGrowthRate inp).impliedGrowth =
        (inp.requiredReturn / 100 - inp.expectedDividend / inp.marketPrice) * 100 ∧
      (calculateImpliedGrowthRate inp).calculatedD1 =
        inp.dividendAmount *
          (1 + (inp.requiredReturn / 100 - inp.expectedDividend / inp.marketPrice)) ∧
      ((calculateImpliedGrowthRate inp).isValid = true ∨
        (calculateImpliedGrowthRate inp).isValid = false) ∧
      ((calculateImpliedGrowthRate inp).d1Consistent = true ∨
        (calculateImpliedGrowthRate inp).d1Consistent = false) := by
  refine ⟨?_, rfl, rfl, ?_, ?_⟩
  · simp [calculateImpliedGrowthRate]
  · exact Bool.eq_false_or_eq_true _
  · exact Bool.eq_false_or_eq_true _

/-- Witness for C7 at the concrete input P=2, D0=1, R=10, D1=1. -/
theorem calc_total_wellformed_witness :
    (0 : ℚ) < 2 ∧ (calculateImpliedGrowthRate ⟨2, 1, 10, 1⟩).cashflows.length = 11 :=
  ⟨by norm_num, (calc_total_wellformed ⟨2, 1, 10, 1⟩ (by norm_num)).1⟩

/-- C8: when the expected dividend exactly equals `marketPrice * requiredReturn / 100`
(with positive price and required return), the growth fraction is exactly 0,
the returned percentage is 0, the result is valid, and every year-1..10
dividend is flat at `dividendAmount`. -/
theorem zero_growth_case (inp : Inputs) (hp : 0 < inp.marketPrice)
    (hr : 0 < inp.requiredReturn)
    (hd1 : inp.expectedDividend = inp.marketPrice * inp.requiredReturn / 100) :
    inp.requiredReturn / 100 - inp.expectedDividend / inp.marketPrice = 0 ∧
      (calculateImpliedGrowthRate inp).impliedGrowth = 0 ∧
      (calculateImpliedGrowthRate inp).isValid = true ∧
      ∀ y : ℕ, 1 ≤ y → y ≤ 10 →
        ((calculateImpliedGrowthRate inp).cashflows.getD y defaultCF).dividend =
          inp.dividendAmount := by
  have hp0 : inp.marketPrice ≠ 0 := ne_of_gt hp
  have hg : inp.requiredReturn / 100 - inp.expectedDividend / inp.marketPrice = 0 := by
    rw [hd1]
    field_simp
    ring
  have hr100 : (0 : ℚ) < inp.requiredReturn / 100 := by positivity
  refine ⟨hg, ?_, ?_, ?_⟩
  · simp only [calculateImpliedGrowthRate, hg]
    ring
  · simp only [calculateImpliedGrowthRate, hg]
    simp only [Bool.and_eq_true, decide_eq_true_eq, ge_iff_le]
    exact ⟨hr100, le_refl 0⟩
  · intro y hy1 hy10
    rw [cashflows_getD_eq inp y (by omega), if_neg (by omega)]
    simp [growthFraction, hg]

/-- Witness for C8 at the concrete input P=100, D0=2, R=5, D1=5. -/
theorem zero_growth_case_witness :
    ((0 : ℚ) < 100 ∧ (0 : ℚ) < 5 ∧ (5 : ℚ) = 100 * 5 / 100) ∧
      (5 : ℚ) / 100 - 5 / 100 = 0 ∧
        (calculateImpliedGrowthRate ⟨100, 2, 5, 5⟩).impliedGrowth = 0 ∧
        (calculateImpliedGrowthRate ⟨100, 2, 5, 5⟩).isValid = true ∧
        ∀ y : ℕ, 1 ≤ y → y ≤ 10 →
          ((calculateImpliedGrowthRate ⟨100, 2, 5, 5⟩).cashflows.getD y defaultCF).dividend =
            2 :=
  ⟨⟨by norm_num, by norm_num, by norm_num⟩,
    zero_growth_case ⟨100, 2, 5, 5⟩ (by norm_num) (by norm_num) (by norm_num)⟩

/-- If `validateInputs` records no market-price error, the price is inside
the clamped range `[1, 500]`. Shared inversion helper. -/
theorem of_marketPrice_none (inp : Inputs)
    (h : (validateInputs inp).marketPrice = none) :
    1 ≤ inp.marketPrice ∧ inp.marketPrice ≤ 500 := by
  simp only [validateInputs] at h
  split_ifs at h with h1 h2
  · push_neg at h1 h2
    exact ⟨h1.2, h2⟩

/-- C3 counterexample: the input P=100, D0=1, R=5, D1=0 lies inside all four
documented ranges and derives `g = 0.05 ≥ r/100 = 0.05`, yet `validateInputs`
records no financial error and returns an empty mapping, so the claimed
rejection does not happen. -/
theorem validation_gap_counterexample :
    ((1 : ℚ) ≤ 100 ∧ (100 : ℚ) ≤ 500) ∧
      ((0 : ℚ) ≤ 1 ∧ (1 : ℚ) ≤ 50) ∧
      ((0 : ℚ) < 5 ∧ (5 : ℚ) ≤ 25) ∧
      ((0 : ℚ) ≤ 0 ∧ (0 : ℚ) ≤ 50) ∧
      growthFraction ⟨100, 1, 5, 0⟩ ≥ (5 : ℚ) / 100 ∧
      (validateInputs ⟨100, 1, 5, 0⟩).financial = none ∧
      (validateInputs ⟨100, 1, 5, 0⟩).isEmpty = true := by
  refine ⟨by norm_num, by norm_num, by norm_num, by norm_num, ?_,
    by norm_num [validateInputs], by norm_num [validateInputs, ValidationErrors.isEmpty]⟩
  norm_num [growthFraction]

/-- C3 (amended): for inputs inside the documented ranges whose derived
growth satisfies `g ≥ r/100` (forcing `expectedDividend = 0`, which the
financial guard excludes), `validateInputs` returns the empty error mapping;
the model is therefore invoked and flags the combination with
`isValid = false` instead. -/
theorem validation_empty_of_g_ge_r (inp : Inputs)
    (h1 : 1 ≤ inp.marketPrice) (h2 : inp.marketPrice ≤ 500)
    (h3 : 0 ≤ inp.dividendAmount) (h4 : inp.dividendAmount ≤ 50)
    (h5 : 0 < inp.requiredReturn) (h6 : inp.requiredReturn ≤ 25)
    (h7 : 0 ≤ inp.expectedDividend) (h8 : inp.expectedDividend ≤ 50)
    (h9 : inp.requiredReturn / 100 - inp.expectedDividend / inp.marketPrice ≥
      inp.requiredReturn / 100) :
    (validateInputs inp).isEmpty = true ∧
      (calculateImpliedGrowthRate inp).isValid = false := by
  have hp : (0 : ℚ) < inp.marketPrice := lt_of_lt_of_le one_pos h1
  have hdivle : inp.expectedDividend / inp.marketPrice ≤ 0 := by linarith
  have hdiv0 : inp.expectedDividend / inp.marketPrice = 0 :=
    le_antisymm hdivle (div_nonneg h7 hp.le)
  have hd10 : inp.expectedDividend = 0 := by
    rcases div_eq_zero_iff.mp hdiv0 with h | h
    · exact h
    · exact absurd h (ne_of_gt hp)
  constructor
  · simp only [ValidationErrors.isEmpty, validateInputs]
    rw [if_neg (by push_neg; exact ⟨ne_of_gt hp, h1⟩),
      if_neg (not_lt.mpr h2), if_neg (not_lt.mpr h3), if_neg (not_lt.mpr h4),
      if_neg (by push_neg; exact ⟨ne_of_gt h5, h5⟩),
      if_neg (not_lt.mpr h6), if_neg (not_lt.mpr h7), if_neg (not_lt.mpr h8),
      if_neg (by rw [hd10]; simp)]
    rfl
  · simp [calculateImpliedGrowthRate, hdiv0]

/-- Witness for the amended C3 at the concrete input P=100, D0=1, R=5, D1=0. -/
theorem validation_empty_of_g_ge_r_witness :
    ((5 : ℚ) / 100 - 0 / 100 ≥ (5 : ℚ) / 100) ∧
      (validateInputs ⟨100, 1, 5, 0⟩).isEmpty = true ∧
        (calculateImpliedGrowthRate ⟨100, 1, 5, 0⟩).isValid = false :=
  ⟨by norm_num,
    validation_empty_of_g_ge_r ⟨100, 1, 5, 0⟩ (by norm_num) (by norm_num) (by norm_num)
      (by norm_num) (by norm_num) (by norm_num) (by norm_num) (by norm_num)
      (by norm_num)⟩

/-- C9: an input that passes validation with an empty error mapping and has a
strictly positive expected dividend derives a growth fraction strictly below
`requiredReturn/100`; the model's validity flag then reduces to the
non-negativity test alone. -/
theorem validated_growth_lt_r (inp : Inputs)
    (hv : (validateInputs inp).isEmpty = true) (hd1 : 0 < inp.expectedDividend) :
    inp.requiredReturn / 100 - inp.expectedDividend / inp.marketPrice <
        inp.requiredReturn / 100 ∧
      (calculateImpliedGrowthRate inp).isValid =
        decide (inp.requiredReturn / 100 - inp.expectedDividend / inp.marketPrice ≥ 0) := by
  simp only [ValidationErrors.isEmpty, Bool.and_eq_true,
    Option.isNone_iff_eq_none] at hv
  have hp1 : 1 ≤ inp.marketPrice := (of_marketPrice_none inp hv.1.1.1.1).1
  have hp : (0 : ℚ) < inp.marketPrice := lt_of_lt_of_le one_pos hp1
  have hpos : 0 < inp.expectedDividend / inp.marketPrice := div_pos hd1 hp
  have hlt : inp.requiredReturn / 100 - inp.expectedDividend / inp.marketPrice <
      inp.requiredReturn / 100 := sub_lt_self _ hpos
  refine ⟨hlt, ?_⟩
  simp only [calculateImpliedGrowthRate]
  rw [decide_eq_true hlt, Bool.true_and]

/-- Witness for C9 at the concrete input P=100, D0=1, R=5, D1=1. -/
theorem validated_growth_lt_r_witness :
    ((validateInputs ⟨100, 1, 5, 1⟩).isEmpty = true ∧ (0 : ℚ) < 1) ∧
      (5 : ℚ) / 100 - 1 / 100 < (5 : ℚ) / 100 ∧
        (calculateImpliedGrowthRate ⟨100, 1, 5, 1⟩).isValid =
          decide ((5 : ℚ) / 100 - 1 / 100 ≥ 0) :=
  ⟨⟨by norm_num [validateInputs, ValidationErrors.isEmpty], by norm_num⟩,
    validated_growth_lt_r ⟨100, 1, 5, 1⟩
      (by norm_num [validateInputs, ValidationErrors.isEmpty]) (by norm_num)⟩

/-- C10 counterexample: the input P=1, D0=-1, R=200, D1=1 has positive price,
growth fraction `g = 1 ≥ 0` (and even `isValid = true`), yet the year-2
dividend is strictly below the year-1 dividend, so the projected dividends
are not monotone non-decreasing without a sign assumption on D0. -/
theorem dividend_monotone_counterexample :
    (0 : ℚ) < 1 ∧
      0 ≤ growthFraction ⟨1, -1, 200, 1⟩ ∧
      (calculateImpliedGrowthRate ⟨1, -1, 200, 1⟩).isValid = true ∧
      ((calculateImpliedGrowthRate ⟨1, -1, 200, 1⟩).cashflows.getD 2 defaultCF).dividend <
        ((calculateImpliedGrowthRate ⟨1, -1, 200, 1⟩).cashflows.getD 1 defaultCF).dividend := by
  refine ⟨by norm_num, ?_, ?_, ?_⟩
  · norm_num [growthFraction]
  · norm_num [calculateImpliedGrowthRate]
  · rw [cashflows_getD_eq ⟨1, -1, 200, 1⟩ 2 (by norm_num),
      cashflows_getD_eq ⟨1, -1, 200, 1⟩ 1 (by norm_num)]
    norm_num [growthFraction]

/-- C10 (amended): with the additional hypothesis `0 ≤ dividendAmount`, a
non-negative growth fraction makes the projected dividends monotone
non-decreasing over years 1..9, each successive dividend being the previous
one scaled by `1 + g ≥ 1`. -/
theorem dividend_monotone_of_nonneg (inp : Inputs) (hp : 0 < inp.marketPrice)
    (hd0 : 0 ≤ inp.dividendAmount) (hg : 0 ≤ growthFraction inp)
    (y : ℕ) (hy1 : 1 ≤ y) (hy9 : y ≤ 9) :
    ((calculateImpliedGrowthRate inp).cashflows.getD y defaultCF).dividend ≤
        ((calculateImpliedGrowthRate inp).cashflows.getD (y + 1) defaultCF).dividend ∧
      ((calculateImpliedGrowthRate inp).cashflows.getD (y + 1) defaultCF).dividend =
        ((calculateImpliedGrowthRate inp).cashflows.getD y defaultCF).dividend *
          (1 + growthFraction inp) := by
  rw [cashflows_getD_eq inp y (by omega), if_neg (by omega),
    cashflows_getD_eq inp (y + 1) (by omega), if_neg (by omega)]
  have h1g : (1 : ℚ) ≤ 1 + growthFraction inp := by linarith
  constructor
  · exact mul_le_mul_of_nonneg_left (pow_le_pow_right₀ h1g (Nat.le_succ y)) hd0
  · rw [pow_succ]
    ring

/-- Witness for the amended C10 at the concrete input P=100, D0=1, R=5, D1=1
and year 1. -/
theorem dividend_monotone_of_nonneg_witness :
    ((0 : ℚ) < 100 ∧ (0 : ℚ) ≤ 1 ∧ 0 ≤ growthFraction ⟨100, 1, 5, 1⟩) ∧
      ((calculateImpliedGrowthRate ⟨100, 1, 5, 1⟩).cashflows.getD 1 defaultCF).dividend ≤
          ((calculateImpliedGrowthRate ⟨100, 1, 5, 1⟩).cashflows.getD 2 defaultCF).dividend ∧
        ((calculateImpliedGrowthRate ⟨100, 1, 5, 1⟩).cashflows.getD 2 defaultCF).dividend =
          ((calculateImpliedGrowthRate ⟨100, 1, 5, 1⟩).cashflows.getD 1 defaultCF).dividend *
            (1 + growthFraction ⟨100, 1, 5, 1⟩) :=
  ⟨⟨by norm_num, by norm_num, by norm_num [growthFraction]⟩,
    dividend_monotone_of_nonneg ⟨100, 1, 5, 1⟩ (by norm_num) (by norm_num)
      (by norm_num [growthFraction]) 1 (by norm_num) (by norm_num)⟩
